import Mathlib

/-!
Verification of the scroll-synchronized rendering logic of a single-page
landing site (src/App.jsx): the deterministic noise function, the canvas
touched-cell color mapping, the scroll-progress mapper, the damped
progress filter, the particle interpolation, and the hero scroll-jack
state machine. Numeric code is modelled over exact arithmetic: ℚ for the
purely rational expressions and ℝ where trigonometry is involved.
-/

namespace Pixels

/-- Noise generator from App.jsx: Math.abs(Math.sin(x * 12.9898 + y * 78.233) * 43758.5453) % 1.
For a nonnegative left operand, the JS % 1 operation is the fractional part. -/
noncomputable def pseudoRandom (x y : ℝ) : ℝ :=
  Int.fract |Real.sin (x * 12.9898 + y * 78.233) * 43758.5453|

/-- The fixed 11-color palette of PixelBackground. -/
def palette : List String :=
  ["#eef2ff", "#e0e7ff",
   "#c7d2fe", "#a5b4fc", "#818cf8",
   "#6366f1", "#fca5a5", "#86efac", "#fde047",
   "#94a3b8", "#64748b"]

/-- Color index computed in PixelBackground.render for a touched cell:
colorIndex = Math.floor((noiseVal + touchMod + currentScroll * 0.001) * (palette.length - 2)) + 2,
followed by the overflow guard: if (colorIndex >= palette.length) colorIndex = 0. -/
def touchedColorIndex (noiseVal touchMod currentScroll : ℚ) : ℤ :=
  if (palette.length : ℤ) ≤
      ⌊(noiseVal + touchMod + currentScroll * 0.001) * ((palette.length : ℚ) - 2)⌋ + 2
  then 0
  else ⌊(noiseVal + touchMod + currentScroll * 0.001) * ((palette.length : ℚ) - 2)⌋ + 2

/-- Math.max(0, Math.min(1, x)). -/
def clamp01 (x : ℚ) : ℚ := max 0 (min 1 x)

/-- Scroll handler of ParticleMorphScene.onScroll: with
totalDistance = rect.height - viewportHeight, it sets the target to
Math.max(0, Math.min(1, -rect.top / totalDistance)) when totalDistance > 0
and otherwise leaves the previous target in place. -/
def onScroll (rectTop rectHeight viewportHeight target : ℚ) : ℚ :=
  if 0 < rectHeight - viewportHeight
  then clamp01 (-rectTop / (rectHeight - viewportHeight))
  else target

/-- Modelled from the spec: the progress formula the spec states for the
scroll-progress mapper, clamp((viewportHeight - top) / (containerHeight - viewportHeight), 0, 1),
kept as a separate definition for refinement comparison against onScroll. -/
def specC1Progress (rectTop rectHeight viewportHeight : ℚ) : ℚ :=
  clamp01 ((viewportHeight - rectTop) / (rectHeight - viewportHeight))

/-- Per-frame damping step of ParticleMorphScene.animate:
scrollProgress += (targetScrollProgress - scrollProgress) * 0.05. -/
def dampStep (current target : ℝ) : ℝ := current + (target - current) * 0.05

/-- The three hero states of App. -/
inductive HeroState
  | initial
  | transitioning
  | swapped
  deriving DecidableEq, Repr

/-- Input events handled by the scroll-jack listener: wheel events carry a
deltaY, touchmove events carry none. -/
inductive InputEvent
  | wheel (deltaY : ℚ)
  | touchmove

/-- The fixed delay of the hero transition timer, in milliseconds. -/
def transitionDelayMs : ℕ := 1500

/-- The scroll-jack input handler of App.handleInput, together with the guard
in its enclosing effect (listeners are not attached when window.scrollY > 50).
Returns the new hero state and the delay of the timer it schedules, if any:
modal open, non-initial state, or a wheel event with deltaY <= 0 all leave
the state unchanged; otherwise the state moves to transitioning and a
1500 ms timer is scheduled that will set the state to swapped. -/
def handleInput (scrollY : ℚ) (showModal : Bool) (s : HeroState) (e : InputEvent) :
    HeroState × Option ℕ :=
  if 50 < scrollY then (s, none)
  else if showModal then (s, none)
  else if s = HeroState.initial then
    match e with
    | InputEvent.wheel d =>
        if d ≤ 0 then (s, none) else (HeroState.transitioning, some transitionDelayMs)
    | InputEvent.touchmove => (HeroState.transitioning, some transitionDelayMs)
  else (s, none)

/-- The setTimeout callback scheduled by handleInput: it sets the hero state
to swapped unconditionally. -/
def heroTimerFire (_ : HeroState) : HeroState := HeroState.swapped

/-- The scroll listener of App.handleScrollReset:
if (window.scrollY < 50 && heroState === 'swapped') setHeroState('initial'). -/
def handleScrollReset (scrollY : ℚ) (s : HeroState) : HeroState :=
  if scrollY < 50 ∧ s = HeroState.swapped then HeroState.initial else s

/-- Per-particle local phase in ParticleMorphScene.animate:
localProgress = (sp * 1.5) - (p.delay * 0.5), clamped to the unit interval. -/
noncomputable def localPhase (sp delay : ℝ) : ℝ :=
  max 0 (min 1 (sp * 1.5 - delay * 0.5))

/-- Symmetric quadratic ease of animate:
t = localProgress < .5 ? 2 * localProgress * localProgress : -1 + (4 - 2 * localProgress) * localProgress. -/
noncomputable def easeQuad (lp : ℝ) : ℝ :=
  if lp < 0.5 then 2 * lp * lp else -1 + (4 - 2 * lp) * lp

/-- Componentwise linear interpolation of Vector3.lerpVectors(a, b, t). -/
noncomputable def lerp3 (a b : ℝ × ℝ × ℝ) (t : ℝ) : ℝ × ℝ × ℝ :=
  (a.1 + (b.1 - a.1) * t, a.2.1 + (b.2.1 - a.2.1) * t, a.2.2 + (b.2.2 - a.2.2) * t)

/-- Per-particle scale of animate: scale = 1 + (Math.sin(t * Math.PI) * 0.5). -/
noncomputable def scaleFactor (t : ℝ) : ℝ := 1 + Real.sin (t * Real.pi) * 0.5

/-- Position assigned each frame: p.mesh.position.lerpVectors(p.startPos, p.endPos, t)
with t the eased clamped local phase. -/
noncomputable def particlePos (startPos endPos : ℝ × ℝ × ℝ) (sp delay : ℝ) : ℝ × ℝ × ℝ :=
  lerp3 startPos endPos (easeQuad (localPhase sp delay))

/-- Scale assigned each frame: p.mesh.scale.setScalar(scale) with the eased
clamped local phase fed into scaleFactor. -/
noncomputable def particleScale (sp delay : ℝ) : ℝ :=
  scaleFactor (easeQuad (localPhase sp delay))

/-! Helper lemmas shared by the particle claims. -/

theorem easeQuad_zero : easeQuad 0 = 0 := by norm_num [easeQuad]

theorem easeQuad_one : easeQuad 1 = 1 := by norm_num [easeQuad]

theorem easeQuad_half : easeQuad (1/2) = 1/2 := by norm_num [easeQuad]

theorem scaleFactor_zero : scaleFactor 0 = 1 := by simp [scaleFactor]

theorem scaleFactor_one : scaleFactor 1 = 1 := by simp [scaleFactor, Real.sin_pi]

theorem scaleFactor_half : scaleFactor (1/2) = 3/2 := by
  rw [scaleFactor, show (1/2 : ℝ) * Real.pi = Real.pi / 2 by ring, Real.sin_pi_div_two]
  norm_num

theorem scaleFactor_le_max (t : ℝ) : scaleFactor t ≤ 3/2 := by
  have h := Real.sin_le_one (t * Real.pi)
  simp only [scaleFactor]
  nlinarith

theorem scaleFactor_ge_one (t : ℝ) (h0 : 0 ≤ t) (h1 : t ≤ 1) : 1 ≤ scaleFactor t := by
  have hsin : 0 ≤ Real.sin (t * Real.pi) :=
    Real.sin_nonneg_of_nonneg_of_le_pi (mul_nonneg h0 Real.pi_pos.le)
      (mul_le_of_le_one_left Real.pi_pos.le h1)
  simp only [scaleFactor]
  nlinarith

theorem lerp3_zero (a b : ℝ × ℝ × ℝ) : lerp3 a b 0 = a := by
  obtain ⟨a1, a2, a3⟩ := a
  obtain ⟨b1, b2, b3⟩ := b
  simp only [lerp3, Prod.mk.injEq]
  exact ⟨by ring, by ring, by ring⟩

theorem lerp3_one (a b : ℝ × ℝ × ℝ) : lerp3 a b 1 = b := by
  obtain ⟨a1, a2, a3⟩ := a
  obtain ⟨b1, b2, b3⟩ := b
  simp only [lerp3, Prod.mk.injEq]
  exact ⟨by ring, by ring, by ring⟩

theorem localPhase_nonneg (sp delay : ℝ) : 0 ≤ localPhase sp delay :=
  le_max_left 0 _

theorem localPhase_le_one (sp delay : ℝ) : localPhase sp delay ≤ 1 :=
  max_le zero_le_one (min_le_left 1 _)

theorem easeQuad_nonneg (lp : ℝ) (h0 : 0 ≤ lp) (h1 : lp ≤ 1) : 0 ≤ easeQuad lp := by
  simp only [easeQuad]
  split_ifs with h
  · nlinarith
  · rw [not_lt] at h
    nlinarith

theorem easeQuad_le_one (lp : ℝ) (h0 : 0 ≤ lp) (h1 : lp ≤ 1) : easeQuad lp ≤ 1 := by
  simp only [easeQuad]
  split_ifs with h
  · nlinarith
  · rw [not_lt] at h
    nlinarith [sq_nonneg (1 - lp)]

/-! The claims. -/

/-- Claim C1 counterexample: at viewportHeight = 1, containerHeight = 5,
top = 0 and previous target 0, onScroll sets the target to 0, while the
spec formula clamp((viewportHeight - top) / (containerHeight - viewportHeight), 0, 1)
gives 1/4, so onScroll does not implement the spec formula. -/
theorem c1_counterexample :
    onScroll 0 5 1 0 = 0 ∧ specC1Progress 0 5 1 = 1/4 ∧
    onScroll 0 5 1 0 ≠ specC1Progress 0 5 1 := by
  refine ⟨?_, ?_, ?_⟩ <;>
    norm_num [onScroll, specC1Progress, clamp01, min_def, max_def]

/-- Claim C1 (amended): for every scroll event where the scrollable distance
containerHeight - viewportHeight is positive, onScroll sets the target
progress to clamp((0 - top) / (containerHeight - viewportHeight), 0, 1),
i.e. clamp(-top / (containerHeight - viewportHeight), 0, 1). -/
theorem c1_target_formula (rectTop rectHeight viewportHeight target : ℚ)
    (h : 0 < rectHeight - viewportHeight) :
    onScroll rectTop rectHeight viewportHeight target
      = clamp01 (-rectTop / (rectHeight - viewportHeight)) := by
  simp only [onScroll]
  rw [if_pos h]

/-- Witness for c1_target_formula at top = -2, height = 5, viewport = 1. -/
theorem c1_target_formula_witness :
    0 < (5 : ℚ) - 1 ∧ onScroll (-2) 5 1 0 = clamp01 (-(-2) / ((5 : ℚ) - 1)) :=
  ⟨by norm_num, c1_target_formula (-2) 5 1 0 (by norm_num)⟩

/-- Claim C2: with containerHeight = 5 * viewportHeight, the computed progress
is 1/2 at top = -2 * viewportHeight, 0 at top = 0, and 1 for every
top ≤ -(containerHeight - viewportHeight). -/
theorem c2_progress_checkpoints (v target rectTop : ℚ) (hv : 0 < v) :
    onScroll (-(2*v)) (5*v) v target = 1/2 ∧
    onScroll 0 (5*v) v target = 0 ∧
    (rectTop ≤ -(5*v - v) → onScroll rectTop (5*v) v target = 1) := by
  have hd : 0 < 5*v - v := by linarith
  refine ⟨?_, ?_, ?_⟩
  · simp only [onScroll]
    rw [if_pos hd]
    have harg : -(-(2*v)) / (5*v - v) = 1/2 := by
      rw [div_eq_iff (ne_of_gt hd)]
      ring
    rw [harg]
    norm_num [clamp01, min_def, max_def]
  · simp only [onScroll]
    rw [if_pos hd]
    norm_num [clamp01, min_def, max_def]
  · intro hTop
    simp only [onScroll]
    rw [if_pos hd]
    have hge : 1 ≤ -rectTop / (5*v - v) := by
      rw [le_div_iff₀ hd]
      linarith
    rw [clamp01, min_eq_left hge]
    norm_num

/-- Witness for c2_progress_checkpoints at viewportHeight 1 and top -4. -/
theorem c2_progress_checkpoints_witness :
    (0 : ℚ) < 1 ∧ onScroll (-(2*1)) (5*1) 1 0 = 1/2 ∧ onScroll 0 (5*1) 1 0 = 0 ∧
    (-4 : ℚ) ≤ -(5*1 - 1) ∧ onScroll (-4) (5*1) 1 0 = 1 := by
  have h := c2_progress_checkpoints 1 0 (-4) (by norm_num)
  exact ⟨by norm_num, h.1, h.2.1, by norm_num, h.2.2 (by norm_num)⟩

/-- Claim C3 counterexample: with noise value 9/10 in the unit interval,
stored intensity 9/10 in the unit interval, and scroll offset 0,
the touched-cell color index computed by render is 0 (the blended value
overflows the palette and the guard resets it), not at least 2. -/
theorem c3_counterexample :
    (0 ≤ (9/10 : ℚ) ∧ (9/10 : ℚ) < 1) ∧ 0 ≤ (0 : ℚ) ∧
    touchedColorIndex (9/10) (9/10) 0 = 0 ∧
    ¬ (2 ≤ touchedColorIndex (9/10) (9/10) 0) := by
  have hl : palette.length = 11 := rfl
  have hfl : ⌊((9:ℚ)/10 + 9/10 + 0 * 0.001) * ((11 : ℚ) - 2)⌋ = 16 := by
    rw [Int.floor_eq_iff]
    norm_num
  refine ⟨⟨by norm_num, by norm_num⟩, le_refl 0, ?_, ?_⟩ <;>
    simp only [touchedColorIndex, hl] <;> norm_num [hfl]

/-- Claim C3 (amended): for every noise value in the unit interval, every
stored intensity in the unit interval and every nonnegative scroll offset,
the touched-cell color index is either 0 (when the blended index reaches the
palette length and the overflow guard resets it) or lies between 2 and 10;
and whenever noise + intensity + 0.001 * scroll < 1 it lies between 2 and 10. -/
theorem c3_touched_index_range (noiseVal touchMod currentScroll : ℚ)
    (hn0 : 0 ≤ noiseVal) (hn1 : noiseVal < 1)
    (ht0 : 0 ≤ touchMod) (ht1 : touchMod < 1)
    (hs : 0 ≤ currentScroll) :
    (touchedColorIndex noiseVal touchMod currentScroll = 0 ∨
      (2 ≤ touchedColorIndex noiseVal touchMod currentScroll ∧
        touchedColorIndex noiseVal touchMod currentScroll ≤ 10)) ∧
    (noiseVal + touchMod + currentScroll * 0.001 < 1 →
      2 ≤ touchedColorIndex noiseVal touchMod currentScroll ∧
        touchedColorIndex noiseVal touchMod currentScroll ≤ 10) := by
  have hl : palette.length = 11 := rfl
  have htc : touchedColorIndex noiseVal touchMod currentScroll =
      if (11 : ℤ) ≤ ⌊(noiseVal + touchMod + currentScroll * 0.001) * 9⌋ + 2 then 0
      else ⌊(noiseVal + touchMod + currentScroll * 0.001) * 9⌋ + 2 := by
    simp only [touchedColorIndex, hl]
    norm_num
  have hsum0 : 0 ≤ noiseVal + touchMod + currentScroll * 0.001 :=
    add_nonneg (add_nonneg hn0 ht0) (mul_nonneg hs (by norm_num))
  have hf0 : 0 ≤ ⌊(noiseVal + touchMod + currentScroll * 0.001) * 9⌋ :=
    Int.floor_nonneg.mpr (mul_nonneg hsum0 (by norm_num))
  rw [htc]
  constructor
  · by_cases hcase : (11 : ℤ) ≤ ⌊(noiseVal + touchMod + currentScroll * 0.001) * 9⌋ + 2
    · rw [if_pos hcase]
      exact Or.inl rfl
    · rw [if_neg hcase]
      exact Or.inr ⟨by omega, by omega⟩
  · intro hlt
    have h9 : (noiseVal + touchMod + currentScroll * 0.001) * 9 < 9 := by nlinarith
    have hf9 : ⌊(noiseVal + touchMod + currentScroll * 0.001) * 9⌋ < 9 :=
      Int.floor_lt.mpr (by exact_mod_cast h9)
    rw [if_neg (by omega)]
    exact ⟨by omega, by omega⟩

/-- Witness for c3_touched_index_range at noise 2/5, intensity 2/5, scroll 0. -/
theorem c3_touched_index_range_witness :
    (0 ≤ (2/5 : ℚ) ∧ (2/5 : ℚ) < 1 ∧ 0 ≤ (0 : ℚ)) ∧
    ((2/5 : ℚ) + 2/5 + 0 * 0.001 < 1 →
      2 ≤ touchedColorIndex (2/5) (2/5) 0 ∧ touchedColorIndex (2/5) (2/5) 0 ≤ 10) := by
  have h := c3_touched_index_range (2/5) (2/5) 0
    (by norm_num) (by norm_num) (by norm_num) (by norm_num) (by norm_num)
  exact ⟨⟨by norm_num, by norm_num, le_refl 0⟩, h.2⟩

/-- Claim C4: starting in state initial with page scroll below 50 and no modal
active, a wheel event with positive downward delta moves the state to
transitioning and schedules the fixed 1500 ms timer, whose firing sets the
state to swapped; a wheel event with non-positive delta leaves the state
unchanged and schedules nothing. -/
theorem c4_hero_transitions (scrollY d dUp : ℚ)
    (hs : scrollY < 50) (hd : 0 < d) (hup : dUp ≤ 0) :
    handleInput scrollY false HeroState.initial (InputEvent.wheel d)
      = (HeroState.transitioning, some transitionDelayMs) ∧
    transitionDelayMs = 1500 ∧
    heroTimerFire HeroState.transitioning = HeroState.swapped ∧
    handleInput scrollY false HeroState.initial (InputEvent.wheel dUp)
      = (HeroState.initial, none) := by
  have h50 : ¬ (50 < scrollY) := not_lt.mpr hs.le
  refine ⟨?_, rfl, rfl, ?_⟩
  · simp [handleInput, h50, not_le.mpr hd]
  · simp [handleInput, h50, hup]

/-- Witness for c4_hero_transitions at scrollY 0, downward delta 1, upward delta -1. -/
theorem c4_hero_transitions_witness :
    handleInput 0 false HeroState.initial (InputEvent.wheel 1)
      = (HeroState.transitioning, some transitionDelayMs) ∧
    transitionDelayMs = 1500 ∧
    heroTimerFire HeroState.transitioning = HeroState.swapped ∧
    handleInput 0 false HeroState.initial (InputEvent.wheel (-1))
      = (HeroState.initial, none) :=
  c4_hero_transitions 0 1 (-1) (by norm_num) (by norm_num) (by norm_num)

/-- Claim C5: pseudoRandom is a pure deterministic function of its two
arguments, and its value lies in the half-open unit interval. -/
theorem c5_pseudoRandom_det_range (x y x' y' : ℝ) (hx : x = x') (hy : y = y') :
    pseudoRandom x y = pseudoRandom x' y' ∧
    0 ≤ pseudoRandom x y ∧ pseudoRandom x y < 1 := by
  subst hx
  subst hy
  exact ⟨rfl, Int.fract_nonneg _, Int.fract_lt_one _⟩

/-- Witness for c5_pseudoRandom_det_range at x = 0, y = 0. -/
theorem c5_pseudoRandom_det_range_witness :
    pseudoRandom 0 0 = pseudoRandom 0 0 ∧
    0 ≤ pseudoRandom 0 0 ∧ pseudoRandom 0 0 < 1 :=
  c5_pseudoRandom_det_range 0 0 0 0 rfl rfl

/-- Claim C6: at clamped local phase 0 the eased interpolation places the
particle exactly at its start position and at phase 1 exactly at its end
position; the scale factor equals 1 at phase 0 and at phase 1, equals 3/2
at phase 1/2, and is at most its value at phase 1/2 at every phase. -/
theorem c6_particle_endpoints_scale (startPos endPos : ℝ × ℝ × ℝ) (lp : ℝ) :
    lerp3 startPos endPos (easeQuad 0) = startPos ∧
    lerp3 startPos endPos (easeQuad 1) = endPos ∧
    scaleFactor (easeQuad 0) = 1 ∧
    scaleFactor (easeQuad 1) = 1 ∧
    scaleFactor (easeQuad (1/2)) = 3/2 ∧
    scaleFactor (easeQuad lp) ≤ scaleFactor (easeQuad (1/2)) := by
  refine ⟨?_, ?_, ?_, ?_, ?_, ?_⟩
  · rw [easeQuad_zero]
    exact lerp3_zero _ _
  · rw [easeQuad_one]
    exact lerp3_one _ _
  · rw [easeQuad_zero]
    exact scaleFactor_zero
  · rw [easeQuad_one]
    exact scaleFactor_one
  · rw [easeQuad_half]
    exact scaleFactor_half
  · rw [easeQuad_half, scaleFactor_half]
    exact scaleFactor_le_max _

/-- Claim C7: the damping step advances the value by exactly 5 percent of the
remaining gap to the target: dampStep current target = current + 0.05 * (target - current). -/
theorem c7_dampStep_formula (current target : ℝ) :
    dampStep current target = current + 0.05 * (target - current) := by
  simp only [dampStep]
  ring

/-- Claim C8: when the scrollable distance rectHeight - viewportHeight is not
positive, onScroll leaves the target unchanged; the branch structure of
onScroll divides by the distance only in the positive branch. -/
theorem c8_no_update_when_nonpositive (rectTop rectHeight viewportHeight target : ℚ)
    (h : rectHeight - viewportHeight ≤ 0) :
    onScroll rectTop rectHeight viewportHeight target = target := by
  simp only [onScroll]
  rw [if_neg (not_lt.mpr h)]

/-- Witness for c8_no_update_when_nonpositive at top 3, height 2, viewport 2. -/
theorem c8_no_update_when_nonpositive_witness :
    (2 : ℚ) - 2 ≤ 0 ∧ onScroll 3 2 2 (7/10) = 7/10 :=
  ⟨by norm_num, c8_no_update_when_nonpositive 3 2 2 (7/10) (by norm_num)⟩

/-- Claim C9: whenever the state is swapped and a scroll event observes
scrollY < 50, handleScrollReset resets the state to initial; for every state
other than swapped, handleScrollReset leaves the state unchanged. -/
theorem c9_scroll_reset (scrollY : ℚ) (s : HeroState)
    (hs : scrollY < 50) (hns : s ≠ HeroState.swapped) :
    handleScrollReset scrollY HeroState.swapped = HeroState.initial ∧
    handleScrollReset scrollY s = s := by
  constructor
  · simp [handleScrollReset, hs]
  · simp [handleScrollReset, hns]

/-- Witness for c9_scroll_reset at scrollY 0 and state initial. -/
theorem c9_scroll_reset_witness :
    handleScrollReset 0 HeroState.swapped = HeroState.initial ∧
    handleScrollReset 0 HeroState.initial = HeroState.initial :=
  c9_scroll_reset 0 HeroState.initial (by norm_num) (by simp)

/-- Claim C10: for every damped scroll progress and every delay, the local
phase is clamped to the unit interval, the eased parameter stays in the unit
interval, the particle position is a convex combination of its start and end
positions, and the scale factor lies between 1 and 3/2. -/
theorem c10_particle_invariants (sp delay : ℝ) (startPos endPos : ℝ × ℝ × ℝ) :
    (0 ≤ localPhase sp delay ∧ localPhase sp delay ≤ 1) ∧
    (0 ≤ easeQuad (localPhase sp delay) ∧ easeQuad (localPhase sp delay) ≤ 1) ∧
    (∃ t, 0 ≤ t ∧ t ≤ 1 ∧
      particlePos startPos endPos sp delay =
        ((1 - t) * startPos.1 + t * endPos.1,
         (1 - t) * startPos.2.1 + t * endPos.2.1,
         (1 - t) * startPos.2.2 + t * endPos.2.2)) ∧
    (1 ≤ particleScale sp delay ∧ particleScale sp delay ≤ 3/2) := by
  have hlp0 := localPhase_nonneg sp delay
  have hlp1 := localPhase_le_one sp delay
  have he0 := easeQuad_nonneg _ hlp0 hlp1
  have he1 := easeQuad_le_one _ hlp0 hlp1
  refine ⟨⟨hlp0, hlp1⟩, ⟨he0, he1⟩, ?_, ?_, ?_⟩
  · refine ⟨easeQuad (localPhase sp delay), he0, he1, ?_⟩
    obtain ⟨a1, a2, a3⟩ := startPos
    obtain ⟨b1, b2, b3⟩ := endPos
    simp only [particlePos, lerp3, Prod.mk.injEq]
    exact ⟨by ring, by ring, by ring⟩
  · simpa only [particleScale] using scaleFactor_ge_one _ he0 he1
  · simpa only [particleScale] using scaleFactor_le_max _

end Pixels
